import Mathlib

/-!
Verification of the task auto-completion worker of a Go task-management API.

The embedding models:
* the task store (PostgreSQL `tasks` table) as a `List Task`, with the
  repository-layer operations from `repositories/repositories.go` as pure
  functions over it (`NOW()` is passed in explicitly as `now : Int`,
  measured in minutes);
* the worker from `worker/` (`TaskWorker`) : the pure per-call bodies
  (`findAndQueueTasks`, `autoCompleteTask`, `SubmitTask`) as functions, and
  the two long-running goroutines plus `Stop`, with the Go `select`
  nondeterminism, as a small-step transition relation `WStep` over `WState`;
* configuration loading from `config/config.go`, with `os.Getenv` as an
  environment function `String → String` and `strconv.Atoi` modelled by
  `goAtoi` (syntax errors return value 0, as in Go).

The status column holds only the three values the application ever writes
(`pending`, `in_progress`, `completed`; `CreateTask` inserts `pending`,
`UpdateTask` validates against exactly these, the worker writes
`completed`), so `Status` is a three-constructor inductive.
-/

namespace TaskAPI

inductive Status where
  | pending
  | inProgress
  | completed
deriving DecidableEq, Repr

/-- One row of the `tasks` table (`models.Task`). Timestamps are integers
(minutes), since the SQL compares `created_at < NOW() - INTERVAL '1 minute' * m`. -/
structure Task where
  id : String
  userID : String
  title : String
  description : String
  status : Status
  createdAt : Int
  updatedAt : Int
deriving DecidableEq, Repr

namespace Repositories

/-- `GetTaskByID`: `SELECT ... FROM tasks WHERE id = $1`; `sql.ErrNoRows`
becomes `none` ("task not found"). -/
def GetTaskByID (store : List Task) (taskID : String) : Option Task :=
  store.find? (fun t => t.id == taskID)

/-- `GetTasksForAutoCompletion`: `SELECT ... FROM tasks WHERE status IN
('pending','in_progress') AND created_at < NOW() - INTERVAL '1 minute' * $1`. -/
def GetTasksForAutoCompletion (store : List Task) (now : Int) (minutes : Int) :
    List Task :=
  store.filter (fun t =>
    (t.status == Status.pending || t.status == Status.inProgress)
      && decide (t.createdAt < now - minutes))

/-- `AutoCompleteTask`: `UPDATE tasks SET status = 'completed', updated_at =
NOW() WHERE id = $1 AND status IN ('pending','in_progress')`. -/
def AutoCompleteTask (store : List Task) (taskID : String) (now : Int) :
    List Task :=
  store.map (fun t =>
    if t.id == taskID
        && (t.status == Status.pending || t.status == Status.inProgress) then
      { t with status := Status.completed, updatedAt := now }
    else t)

/-- `UpdateTask`: `UPDATE tasks SET title = $1, description = $2, status = $3,
updated_at = NOW() WHERE id = $4` (the manual-edit path reachable over HTTP). -/
def UpdateTask (store : List Task) (taskID title descr : String)
    (status : Status) (now : Int) : List Task :=
  store.map (fun t =>
    if t.id == taskID then
      { t with title := title, description := descr, status := status,
               updatedAt := now }
    else t)

end Repositories

namespace TaskWorker

/-- Capacity of the buffered `taskChannel` (`make(chan string, 100)`). -/
def queueCapacity : Nat := 100

/-- The scanner-visible part of the worker state: the `processedTasks` map
(keys only; the values are always `true`) and the buffered channel contents. -/
structure ScanState where
  processedTasks : List String
  taskChannel : List String
deriving DecidableEq, Repr

/-- The per-candidate body of the loop in `findAndQueueTasks`: skip ids
already in `processedTasks`; otherwise mark the id, then attempt the
bounded-wait send — success appends to the channel, a full channel times out
and the marker is deleted again. -/
def queueOneTask (st : ScanState) (taskID : String) : ScanState :=
  if taskID ∈ st.processedTasks then st
  else
    let marked := st.processedTasks ++ [taskID]
    if st.taskChannel.length < queueCapacity then
      { processedTasks := marked, taskChannel := st.taskChannel ++ [taskID] }
    else
      { processedTasks := marked.erase taskID, taskChannel := st.taskChannel }

/-- `findAndQueueTasks`: on a store query error, log and return with no state
change; otherwise fold `queueOneTask` over the scan result in order. -/
def findAndQueueTasks (scan : Except String (List Task)) (st : ScanState) :
    ScanState :=
  match scan with
  | .error _ => st
  | .ok tasks => tasks.foldl (fun s t => queueOneTask s t.id) st

/-- Outcome of one `autoCompleteTask` call (the Go function only logs; none
of these outcomes is surfaced as an error to the caller). -/
inductive CompleteOutcome where
  | notFound
  | alreadyCompleted
  | completedNow
deriving DecidableEq, Repr

/-- `autoCompleteTask`: re-fetch by id; not found → silent skip; already
`completed` → silent skip; otherwise issue the conditional store update. -/
def autoCompleteTask (store : List Task) (taskID : String) (now : Int) :
    List Task × CompleteOutcome :=
  match Repositories.GetTaskByID store taskID with
  | none => (store, .notFound)
  | some t =>
    if t.status == Status.completed then (store, .alreadyCompleted)
    else (Repositories.AutoCompleteTask store taskID now, .completedNow)

/-- `ChannelFullError` with its `Error()` message. -/
structure ChannelFullError where
deriving DecidableEq, Repr

def ChannelFullError.message : ChannelFullError → String :=
  fun _ => "task queue is full"

/-- `ErrChannelFull`, the value returned when the task channel is full. -/
def ErrChannelFull : ChannelFullError := {}

/-- `SubmitTask` timeout: `5 * time.Second`, in milliseconds. -/
def submitTimeoutMs : Nat := 5000

/-- Scanner enqueue timeout in `findAndQueueTasks`: `100 * time.Millisecond`. -/
def scannerEnqueueTimeoutMs : Nat := 100

/-- Scanner tick period: `1 * time.Minute`, in milliseconds. -/
def tickerIntervalMs : Nat := 60000

/-- `SubmitTask`: bounded-wait send on the buffered channel; if no slot frees
up for the whole wait the channel stays full and `ErrChannelFull` is
returned, otherwise the id is appended and `nil` is returned. -/
def SubmitTask (queue : List String) (taskID : String) :
    Except ChannelFullError (List String) :=
  if queue.length < queueCapacity then .ok (queue ++ [taskID])
  else .error ErrChannelFull

/-- The conditions a `select` statement of the worker waits on. -/
inductive SelectCase where
  | recvStopChannel
  | recvTicker
  | sendTaskChannel
  | recvTaskChannel
  | timeoutAfter
deriving DecidableEq, Repr

/-- Cases of the `select` in `checkAndQueueTasks` (scanner ticker wait). -/
def checkAndQueueTasksWaitCases : List SelectCase :=
  [.recvStopChannel, .recvTicker]

/-- Cases of the `select` in `findAndQueueTasks` (bounded enqueue). -/
def findAndQueueTasksEnqueueCases : List SelectCase :=
  [.sendTaskChannel, .timeoutAfter]

/-- Cases of the `select` in `processTasksFromChannel` (dequeue wait). -/
def processTasksWaitCases : List SelectCase :=
  [.recvStopChannel, .recvTaskChannel]

/-- Cases of the `select` in `SubmitTask` (direct-submit wait). -/
def submitTaskWaitCases : List SelectCase :=
  [.sendTaskChannel, .timeoutAfter]

/-- Global worker state: shared store, channel contents, `processedTasks`,
whether `stopChannel` is closed, whether each goroutine has returned, the
ghost log `handled` of ids the processor dequeued, and the clock. -/
structure WState where
  store : List Task
  taskChannel : List String
  processedTasks : List String
  stopped : Bool
  scannerDone : Bool
  processorDone : Bool
  handled : List String
  now : Int
deriving DecidableEq, Repr

/-- Effect of one successful scanner tick (`findAndQueueTasks` with an `ok`
query result) on the global state. -/
def scanStep (m : Int) (s : WState) : WState :=
  let scan := Repositories.GetTasksForAutoCompletion s.store s.now m
  let st := findAndQueueTasks (.ok scan)
    { processedTasks := s.processedTasks, taskChannel := s.taskChannel }
  { s with processedTasks := st.processedTasks, taskChannel := st.taskChannel }

/-- Effect of the processor dequeuing `taskID` and running
`autoCompleteTask` on it. -/
def procStep (s : WState) (taskID : String) (rest : List String) : WState :=
  { s with taskChannel := rest,
           store := (autoCompleteTask s.store taskID s.now).1,
           handled := s.handled ++ [taskID] }

/-- Interleaving small-step semantics of the worker with eligibility delay
`m`. A Go `select` picks uniformly among ready cases, so when `stopChannel`
is closed (always ready) a loop may still take its other ready case: neither
`scanTick` nor `procRecv` requires `stopped = false`, and `procStop` does not
require an empty channel. `scanTickErr` is a tick whose store query errors.
`manualUpdate` is the concurrent HTTP edit path writing the shared store. -/
inductive WStep (m : Int) : WState → WState → Prop
  | scanTick (s : WState) (h : s.scannerDone = false) :
      WStep m s (scanStep m s)
  | scanTickErr (s : WState) (h : s.scannerDone = false) :
      WStep m s s
  | scanStop (s : WState) (h1 : s.stopped = true) (h2 : s.scannerDone = false) :
      WStep m s { s with scannerDone := true }
  | procRecv (s : WState) (taskID : String) (rest : List String)
      (h : s.processorDone = false) (hq : s.taskChannel = taskID :: rest) :
      WStep m s (procStep s taskID rest)
  | procStop (s : WState) (h1 : s.stopped = true) (h2 : s.processorDone = false) :
      WStep m s { s with processorDone := true }
  | stopSignal (s : WState) (h : s.stopped = false) :
      WStep m s { s with stopped := true }
  | manualUpdate (s : WState) (taskID title descr : String) (status : Status) :
      WStep m s
        { s with store :=
            Repositories.UpdateTask s.store taskID title descr status s.now }

/-- Reachability under the worker semantics. -/
def WReach (m : Int) : WState → WState → Prop :=
  Relation.ReflTransGen (WStep m)

/-- `Stop()` has returned: `stopChannel` closed and `wg.Wait()` satisfied,
i.e. both goroutines have exited. -/
def stopReturned (s : WState) : Prop :=
  s.stopped = true ∧ s.scannerDone = true ∧ s.processorDone = true

end TaskWorker

/-- The two integer fields of `config.Config` the claims are about. -/
structure Config where
  JWTExpiryHours : Int
  AutoCompleteMinutes : Int
deriving DecidableEq, Repr

/-- Decimal value of a digit list. -/
def digitsVal (l : List Char) : Int :=
  l.foldl (fun a c => a * 10 + (Int.ofNat (c.toNat - 48))) 0

/-- `strconv.Atoi` (range overflow aside, which the model's unbounded `Int`
cannot hit): the pair is (value, ok); on a syntax error Go returns value 0
together with a non-nil error, so the model returns `(0, false)`. -/
def goAtoi (s : String) : Int × Bool :=
  let chars := s.toList
  let core : List Char :=
    match chars with
    | '+' :: rest => rest
    | '-' :: rest => rest
    | l => l
  let neg : Bool :=
    match chars with
    | '-' :: _ => true
    | _ => false
  if core ≠ [] ∧ core.all Char.isDigit then
    (if neg then -(digitsVal core) else digitsVal core, true)
  else (0, false)

/-- `getEnv`: unset or empty environment variable falls back to the default. -/
def getEnv (env : String → String) (key defaultValue : String) : String :=
  let value := env key
  if value = "" then defaultValue else value

/-- `getEnvInt`: empty → default; otherwise `intVal, _ := strconv.Atoi(value);
return intVal` — the parse error is discarded. -/
def getEnvInt (env : String → String) (key : String) (defaultValue : Int) :
    Int :=
  let value := env key
  if value = "" then defaultValue else (goAtoi value).1

/-- The integer fields of `LoadConfig`. -/
def LoadConfig (env : String → String) : Config :=
  { JWTExpiryHours := getEnvInt env "JWT_EXPIRY_HOURS" 24,
    AutoCompleteMinutes := getEnvInt env "AUTO_COMPLETE_MINUTES" 30 }

/-! Concrete rows, worker states and environments on which the theorems are
evaluated. -/

def pendingTask : Task :=
  { id := "t1", userID := "u1", title := "write report", description := "",
    status := .pending, createdAt := 0, updatedAt := 0 }

def completedTask : Task :=
  { id := "t2", userID := "u1", title := "ship release", description := "",
    status := .completed, createdAt := 0, updatedAt := 7 }

/-- State at the moment `Stop()` is invoked with one id still queued. -/
def stopStart : TaskWorker.WState :=
  { store := [pendingTask], taskChannel := ["t1"], processedTasks := ["t1"],
    stopped := true, scannerDone := false, processorDone := false,
    handled := [], now := 100 }

/-- Both goroutines exited via the stop signal, the queue untouched. -/
def stopEnd : TaskWorker.WState :=
  { stopStart with scannerDone := true, processorDone := true }

/-- A stopped state with two queued ids, used to evaluate the drain theorem. -/
def stoppedBusy : TaskWorker.WState :=
  { store := [], taskChannel := ["a", "b"], processedTasks := ["a", "b"],
    stopped := true, scannerDone := false, processorDone := false,
    handled := [], now := 0 }

/-- Pristine worker state over a single old pending task. -/
def markStart : TaskWorker.WState :=
  { store := [pendingTask], taskChannel := [], processedTasks := [],
    stopped := false, scannerDone := false, processorDone := false,
    handled := [], now := 100 }

/-- After the first scan tick: `t1` marked in-flight and enqueued. -/
def markMid : TaskWorker.WState :=
  { markStart with processedTasks := ["t1"], taskChannel := ["t1"] }

/-- After the processor handled `t1`. -/
def markProcessed : TaskWorker.WState :=
  TaskWorker.procStep markMid "t1" []

/-- After a manual HTTP edit reverted `t1` to `pending`. -/
def markReverted : TaskWorker.WState :=
  { markProcessed with
      store := Repositories.UpdateTask markProcessed.store "t1" "write report"
        "" Status.pending markProcessed.now }

/-- Idle running worker state, used to evaluate the scan-error theorem. -/
def idleState : TaskWorker.WState :=
  { store := [], taskChannel := [], processedTasks := [],
    stopped := false, scannerDone := false, processorDone := false,
    handled := [], now := 0 }

/-- Environment with a malformed `AUTO_COMPLETE_MINUTES`. -/
def badEnv : String → String :=
  fun key => if key = "AUTO_COMPLETE_MINUTES" then "abc" else ""

/-- Scanner state whose channel is saturated. -/
def fullScanState : TaskWorker.ScanState :=
  { processedTasks := [], taskChannel := List.replicate 100 "x" }

/-! ## Helper lemmas -/

theorem autoCompleteTask_of_none (store : List Task) (taskID : String)
    (now : Int) (h : Repositories.GetTaskByID store taskID = none) :
    TaskWorker.autoCompleteTask store taskID now =
      (store, TaskWorker.CompleteOutcome.notFound) := by
  unfold TaskWorker.autoCompleteTask
  rw [h]

theorem autoCompleteTask_of_completed (store : List Task) (taskID : String)
    (now : Int) (t : Task) (h : Repositories.GetTaskByID store taskID = some t)
    (hs : t.status = Status.completed) :
    TaskWorker.autoCompleteTask store taskID now =
      (store, TaskWorker.CompleteOutcome.alreadyCompleted) := by
  unfold TaskWorker.autoCompleteTask
  rw [h]
  simp [hs]

theorem autoCompleteTask_completedNow (store : List Task) (taskID : String)
    (now : Int)
    (h : (TaskWorker.autoCompleteTask store taskID now).2 =
      TaskWorker.CompleteOutcome.completedNow) :
    ∃ t, Repositories.GetTaskByID store taskID = some t ∧
      (t.status = Status.pending ∨ t.status = Status.inProgress) ∧
      (TaskWorker.autoCompleteTask store taskID now).1 =
        Repositories.AutoCompleteTask store taskID now := by
  unfold TaskWorker.autoCompleteTask at h ⊢
  cases hf : Repositories.GetTaskByID store taskID with
  | none => rw [hf] at h; simp at h
  | some t =>
    rw [hf] at h
    by_cases hs : t.status = Status.completed
    · simp [hs] at h
    · refine ⟨t, rfl, ?_, ?_⟩
      · cases hst : t.status with
        | pending => exact Or.inl rfl
        | inProgress => exact Or.inr rfl
        | completed => exact absurd hst hs
      · simp [hs]

theorem queueOneTask_of_full (st : TaskWorker.ScanState) (taskID : String)
    (h1 : taskID ∉ st.processedTasks)
    (h2 : ¬ st.taskChannel.length < TaskWorker.queueCapacity) :
    TaskWorker.queueOneTask st taskID = st := by
  simp only [TaskWorker.queueOneTask]
  rw [if_neg h1, if_neg h2, List.erase_append_right _ h1,
    List.erase_cons_head, List.append_nil]

theorem queueOneTask_of_space (st : TaskWorker.ScanState) (taskID : String)
    (h1 : taskID ∉ st.processedTasks)
    (h2 : st.taskChannel.length < TaskWorker.queueCapacity) :
    TaskWorker.queueOneTask st taskID =
      { processedTasks := st.processedTasks ++ [taskID],
        taskChannel := st.taskChannel ++ [taskID] } := by
  simp only [TaskWorker.queueOneTask]
  rw [if_neg h1, if_pos h2]

theorem mem_processedTasks_queueOneTask (st : TaskWorker.ScanState)
    (x taskID : String) (h : x ∈ st.processedTasks) :
    x ∈ (TaskWorker.queueOneTask st taskID).processedTasks := by
  simp only [TaskWorker.queueOneTask]
  split
  · exact h
  · rename_i hnot
    split
    · exact List.mem_append_left _ h
    · rw [List.erase_append_right _ hnot, List.erase_cons_head,
        List.append_nil]
      exact h

theorem mem_processedTasks_foldl (l : List Task) :
    ∀ (st : TaskWorker.ScanState) (x : String), x ∈ st.processedTasks →
      x ∈ (l.foldl (fun s t => TaskWorker.queueOneTask s t.id)
        st).processedTasks := by
  induction l with
  | nil => intro st x h; exact h
  | cons t rest ih =>
    intro st x h
    exact ih _ x (mem_processedTasks_queueOneTask st x t.id h)

theorem WStep_processedTasks_mono (m : Int) (s s' : TaskWorker.WState)
    (hs : TaskWorker.WStep m s s') (x : String) (h : x ∈ s.processedTasks) :
    x ∈ s'.processedTasks := by
  cases hs with
  | scanTick h1 =>
    simp only [TaskWorker.scanStep, TaskWorker.findAndQueueTasks]
    exact mem_processedTasks_foldl _ _ x h
  | scanTickErr h1 => exact h
  | scanStop h1 h2 => exact h
  | procRecv taskID rest h1 hq => exact h
  | procStop h1 h2 => exact h
  | stopSignal h1 => exact h
  | manualUpdate taskID title descr status => exact h

/-! ## Claim theorems -/

/-- Claim C1: for every dequeued identifier, the processor re-fetches the
task and issues the store's conditional-complete update only when the
current status is `pending` or `in_progress`; a task already `completed` is
never written (the whole store, hence its `updated_at`, is unchanged) and
the no-op outcome is not an error. -/
theorem processor_writes_only_pending_or_inProgress (store : List Task)
    (taskID : String) (now : Int) :
    ((TaskWorker.autoCompleteTask store taskID now).2 =
        TaskWorker.CompleteOutcome.completedNow →
      ∃ t, Repositories.GetTaskByID store taskID = some t ∧
        (t.status = Status.pending ∨ t.status = Status.inProgress) ∧
        (TaskWorker.autoCompleteTask store taskID now).1 =
          Repositories.AutoCompleteTask store taskID now) ∧
    (∀ t, Repositories.GetTaskByID store taskID = some t →
      t.status = Status.completed →
      TaskWorker.autoCompleteTask store taskID now =
        (store, TaskWorker.CompleteOutcome.alreadyCompleted)) :=
  ⟨fun h => autoCompleteTask_completedNow store taskID now h,
   fun t h hs => autoCompleteTask_of_completed store taskID now t h hs⟩

/-- Witness for C1: on a store holding one already-completed task, the
processor leaves the store (and its `updatedAt`) untouched and reports the
silent skip. -/
theorem processor_writes_only_pending_or_inProgress_witness :
    TaskWorker.autoCompleteTask [completedTask] "t2" 50 =
      ([completedTask], TaskWorker.CompleteOutcome.alreadyCompleted) :=
  (processor_writes_only_pending_or_inProgress [completedTask] "t2" 50).2
    completedTask rfl rfl

/-- Claim C4: a dequeued identifier whose task was deleted (fetch reports
not-found) or whose status is already `completed` is skipped silently: the
store is unchanged, the outcome is the silent-skip one (never an error),
and `autoCompleteTask` is total, so it cannot crash. -/
theorem processor_skips_deleted_and_completed (store : List Task)
    (taskID : String) (now : Int) :
    (Repositories.GetTaskByID store taskID = none →
      TaskWorker.autoCompleteTask store taskID now =
        (store, TaskWorker.CompleteOutcome.notFound)) ∧
    (∀ t, Repositories.GetTaskByID store taskID = some t →
      t.status = Status.completed →
      TaskWorker.autoCompleteTask store taskID now =
        (store, TaskWorker.CompleteOutcome.alreadyCompleted)) :=
  ⟨fun h => autoCompleteTask_of_none store taskID now h,
   fun t h hs => autoCompleteTask_of_completed store taskID now t h hs⟩

/-- Witness for C4: processing an identifier absent from the store changes
nothing and yields the silent not-found skip. -/
theorem processor_skips_deleted_and_completed_witness :
    TaskWorker.autoCompleteTask [completedTask] "gone" 9 =
      ([completedTask], TaskWorker.CompleteOutcome.notFound) :=
  (processor_skips_deleted_and_completed [completedTask] "gone" 9).1 rfl

/-- Claim C5: the scan result is exactly the tasks whose status is `pending`
or `in_progress` and whose creation time is strictly older than
`now − minutes`; a `completed` task, or one created at or after the cutoff,
is never a candidate. -/
theorem scan_candidates_exact (store : List Task) (now minutes : Int)
    (t : Task) :
    t ∈ Repositories.GetTasksForAutoCompletion store now minutes ↔
      t ∈ store ∧ (t.status = Status.pending ∨ t.status = Status.inProgress) ∧
        t.createdAt < now - minutes := by
  simp [Repositories.GetTasksForAutoCompletion, List.mem_filter,
    Bool.and_eq_true, Bool.or_eq_true, beq_iff_eq, decide_eq_true_eq,
    and_assoc]

/-- Claim C2 (counterexample): from `stopStart` — the moment `Stop()` is
invoked with `"t1"` still in the queue — the worker can reach `stopEnd`,
where `Stop()` has returned (both goroutines exited), yet `"t1"` was never
processed and still sits in the queue: the processor's `select` may take the
closed stop channel before the pending receive, so the queue is not drained. -/
theorem stop_drops_queued_id :
    TaskWorker.WReach 30 stopStart stopEnd ∧ TaskWorker.stopReturned stopEnd ∧
    "t1" ∈ stopStart.taskChannel ∧ stopEnd.handled = [] ∧
    stopEnd.taskChannel = ["t1"] := by
  refine ⟨?_, ⟨rfl, rfl, rfl⟩, by decide, rfl, rfl⟩
  have h1 : TaskWorker.WStep 30 stopStart
      { stopStart with scannerDone := true } :=
    TaskWorker.WStep.scanStop stopStart rfl rfl
  have h2 : TaskWorker.WStep 30 { stopStart with scannerDone := true }
      stopEnd :=
    TaskWorker.WStep.procStop { stopStart with scannerDone := true } rfl rfl
  exact Relation.ReflTransGen.tail (Relation.ReflTransGen.single h1) h2

/-- Claim C2 (amended): once `Stop()` has closed the stop channel, there is
always an execution in which both loops exit — so `Stop()` returns — while
no further identifier is processed and the queue contents are left exactly
as they were: the drain of already-enqueued identifiers is not guaranteed. -/
theorem stop_returns_without_drain (m : Int) (s : TaskWorker.WState)
    (h : s.stopped = true) :
    ∃ s', TaskWorker.WReach m s s' ∧ TaskWorker.stopReturned s' ∧
      s'.handled = s.handled ∧ s'.taskChannel = s.taskChannel := by
  cases hsd : s.scannerDone <;> cases hpd : s.processorDone
  · exact ⟨{ s with scannerDone := true, processorDone := true },
      Relation.ReflTransGen.tail
        (Relation.ReflTransGen.single (TaskWorker.WStep.scanStop s h hsd))
        (TaskWorker.WStep.procStop { s with scannerDone := true } h hpd),
      ⟨h, rfl, rfl⟩, rfl, rfl⟩
  · exact ⟨{ s with scannerDone := true },
      Relation.ReflTransGen.single (TaskWorker.WStep.scanStop s h hsd),
      ⟨h, rfl, hpd⟩, rfl, rfl⟩
  · exact ⟨{ s with processorDone := true },
      Relation.ReflTransGen.single (TaskWorker.WStep.procStop s h hpd),
      ⟨h, hsd, rfl⟩, rfl, rfl⟩
  · exact ⟨s, Relation.ReflTransGen.refl, ⟨h, hsd, hpd⟩, rfl, rfl⟩

/-- Witness for the amended C2, at a stopped state with two queued ids. -/
theorem stop_returns_without_drain_witness :
    ∃ s', TaskWorker.WReach 30 stoppedBusy s' ∧
      TaskWorker.stopReturned s' ∧ s'.handled = stoppedBusy.handled ∧
      s'.taskChannel = stoppedBusy.taskChannel :=
  stop_returns_without_drain 30 stoppedBusy rfl

/-- Claim C3 (counterexample): starting from the pristine `markStart`, the
scanner enqueues `"t1"` (marking it in-flight), the processor dequeues and
handles it, and a manual edit then reverts the task to `pending`. In the
resulting reachable state `markReverted` the identifier is neither enqueued
nor being processed, yet its `processedTasks` entry is still present, the
task is again an eligible scan candidate, and the next scan tick enqueues
nothing — the stale marker blocks rediscovery. -/
theorem stale_marker_blocks_rediscovery :
    TaskWorker.WReach 30 markStart markReverted ∧
    "t1" ∈ markReverted.processedTasks ∧
    markReverted.taskChannel = [] ∧
    markReverted.handled = ["t1"] ∧
    (∃ t ∈ Repositories.GetTasksForAutoCompletion markReverted.store
        markReverted.now 30, t.id = "t1") ∧
    (TaskWorker.scanStep 30 markReverted).taskChannel = [] := by
  refine ⟨?_, by decide, by decide, by decide, by decide, by decide⟩
  have e1 : TaskWorker.scanStep 30 markStart = markMid := by decide
  have h1 : TaskWorker.WStep 30 markStart markMid :=
    e1 ▸ TaskWorker.WStep.scanTick markStart rfl
  have h2 : TaskWorker.WStep 30 markMid markProcessed :=
    TaskWorker.WStep.procRecv markMid "t1" [] rfl rfl
  have h3 : TaskWorker.WStep 30 markProcessed markReverted :=
    TaskWorker.WStep.manualUpdate markProcessed "t1" "write report" ""
      Status.pending
  exact Relation.ReflTransGen.tail
    (Relation.ReflTransGen.tail (Relation.ReflTransGen.single h1) h2) h3

/-- Claim C3 (amended): on enqueue failure (channel full) the freshly set
marker is evicted, leaving the in-flight set as it was, so the task is
eligible again on the next scan; on successful enqueue the marker is
appended — and from then on it is permanent: the processor's handling of an
identifier leaves `processedTasks` unchanged, and no worker step ever
removes an existing entry, so a handled identifier stays blocked from
rediscovery for the worker's lifetime. -/
theorem inflight_eviction_and_persistence :
    (∀ (st : TaskWorker.ScanState) (taskID : String),
      taskID ∉ st.processedTasks →
      ¬ st.taskChannel.length < TaskWorker.queueCapacity →
      TaskWorker.queueOneTask st taskID = st) ∧
    (∀ (st : TaskWorker.ScanState) (taskID : String),
      taskID ∉ st.processedTasks →
      st.taskChannel.length < TaskWorker.queueCapacity →
      TaskWorker.queueOneTask st taskID =
        { processedTasks := st.processedTasks ++ [taskID],
          taskChannel := st.taskChannel ++ [taskID] }) ∧
    (∀ (s : TaskWorker.WState) (taskID : String) (rest : List String),
      (TaskWorker.procStep s taskID rest).processedTasks =
        s.processedTasks) ∧
    (∀ (m : Int) (s s' : TaskWorker.WState), TaskWorker.WStep m s s' →
      ∀ x, x ∈ s.processedTasks → x ∈ s'.processedTasks) :=
  ⟨queueOneTask_of_full, queueOneTask_of_space,
   fun _ _ _ => rfl, WStep_processedTasks_mono⟩

/-- Witness for the amended C3: full-channel eviction, successful-enqueue
marking, and marker persistence across the processor's step, all at
concrete states. -/
theorem inflight_eviction_and_persistence_witness :
    TaskWorker.queueOneTask fullScanState "t1" = fullScanState ∧
    TaskWorker.queueOneTask { processedTasks := [], taskChannel := [] } "t1" =
      { processedTasks := ["t1"], taskChannel := ["t1"] } ∧
    (TaskWorker.procStep markMid "t1" []).processedTasks =
      markMid.processedTasks ∧
    "t1" ∈ (TaskWorker.procStep markMid "t1" []).processedTasks :=
  ⟨inflight_eviction_and_persistence.1 fullScanState "t1" (by decide)
      (by decide),
   inflight_eviction_and_persistence.2.1
      { processedTasks := [], taskChannel := [] } "t1" (by decide) (by decide),
   inflight_eviction_and_persistence.2.2.1 markMid "t1" [],
   inflight_eviction_and_persistence.2.2.2 30 markMid
      (TaskWorker.procStep markMid "t1" [])
      (TaskWorker.WStep.procRecv markMid "t1" [] rfl rfl) "t1" (by decide)⟩

/-- Claim C6 (counterexample): the shutdown signal is not observable from
every suspension point — the scanner's bounded enqueue `select` and the
direct-submit `select` wait only on the channel send and a timeout; neither
includes the stop channel. -/
theorem stop_not_in_enqueue_waits :
    TaskWorker.SelectCase.recvStopChannel ∉
      TaskWorker.findAndQueueTasksEnqueueCases ∧
    TaskWorker.SelectCase.recvStopChannel ∉
      TaskWorker.submitTaskWaitCases := by decide

/-- Claim C6 (amended): the scanner's ticker wait and the processor's
dequeue wait are multi-way selects including the stop channel; the
scanner's bounded enqueue and the direct-submit wait do not include the
stop channel — each instead pairs the channel send with a timeout, so those
two waits are time-bounded but complete on their timeout, not on shutdown. -/
theorem stop_observable_only_at_loop_waits :
    TaskWorker.SelectCase.recvStopChannel ∈
      TaskWorker.checkAndQueueTasksWaitCases ∧
    TaskWorker.SelectCase.recvStopChannel ∈
      TaskWorker.processTasksWaitCases ∧
    TaskWorker.SelectCase.recvStopChannel ∉
      TaskWorker.findAndQueueTasksEnqueueCases ∧
    TaskWorker.SelectCase.timeoutAfter ∈
      TaskWorker.findAndQueueTasksEnqueueCases ∧
    TaskWorker.SelectCase.recvStopChannel ∉
      TaskWorker.submitTaskWaitCases ∧
    TaskWorker.SelectCase.timeoutAfter ∈
      TaskWorker.submitTaskWaitCases := by decide

/-- Claim C7: a store query error makes `findAndQueueTasks` return with no
enqueue and no in-flight-set mutation; the scanner loop can take its next
tick, and no step exits the scanner loop except on the stop signal — a
store error never terminates the scanner. -/
theorem scan_error_tick_is_skipped :
    (∀ (e : String) (st : TaskWorker.ScanState),
      TaskWorker.findAndQueueTasks (.error e) st = st) ∧
    (∀ (m : Int) (s : TaskWorker.WState), s.scannerDone = false →
      TaskWorker.WStep m s s) ∧
    (∀ (m : Int) (s s' : TaskWorker.WState), TaskWorker.WStep m s s' →
      s.scannerDone = false → s'.scannerDone = true → s.stopped = true) := by
  refine ⟨fun e st => rfl, fun m s h => TaskWorker.WStep.scanTickErr s h, ?_⟩
  intro m s s' hstep h1 h2
  cases hstep <;> simp_all [TaskWorker.scanStep, TaskWorker.procStep]

/-- Witness for C7: a concrete errored tick changes nothing, and the idle
worker can take that tick. -/
theorem scan_error_tick_is_skipped_witness :
    TaskWorker.findAndQueueTasks (.error "db down")
      { processedTasks := [], taskChannel := [] } =
      { processedTasks := [], taskChannel := [] } ∧
    TaskWorker.WStep 30 idleState idleState :=
  ⟨scan_error_tick_is_skipped.1 "db down"
      { processedTasks := [], taskChannel := [] },
   scan_error_tick_is_skipped.2.1 30 idleState rfl⟩

/-- Claim C8: `SubmitTask` either enqueues within the bounded wait and
returns success, or — when the channel stays full for the whole wait —
returns `ErrChannelFull` instead of blocking forever; its 5-second bound is
deliberately longer than the scanner's internal 100-millisecond enqueue
wait. -/
theorem submit_bounded_wait (q : List String) (taskID : String) :
    (q.length < TaskWorker.queueCapacity →
      TaskWorker.SubmitTask q taskID = .ok (q ++ [taskID])) ∧
    (¬ q.length < TaskWorker.queueCapacity →
      TaskWorker.SubmitTask q taskID = .error TaskWorker.ErrChannelFull) ∧
    TaskWorker.scannerEnqueueTimeoutMs < TaskWorker.submitTimeoutMs := by
  refine ⟨fun h => ?_, fun h => ?_, by decide⟩
  · unfold TaskWorker.SubmitTask
    rw [if_pos h]
  · unfold TaskWorker.SubmitTask
    rw [if_neg h]

/-- Witness for C8: success on an empty channel, `ErrChannelFull` on a
saturated one. -/
theorem submit_bounded_wait_witness :
    TaskWorker.SubmitTask [] "t9" = .ok ["t9"] ∧
    TaskWorker.SubmitTask (List.replicate 100 "x") "t9" =
      .error TaskWorker.ErrChannelFull :=
  ⟨(submit_bounded_wait [] "t9").1 (by decide),
   (submit_bounded_wait (List.replicate 100 "x") "t9").2.1 (by decide)⟩

/-- Claim C9: the auto-completion update touches only the status and
updated-at columns of the targeted row — every row keeps its id, user id,
title, description and creation time, and any row whose id differs from the
target is entirely unchanged (row count and order preserved). -/
theorem AutoCompleteTask_frame (store : List Task) (taskID : String)
    (now : Int) :
    List.Forall₂ (fun t t' =>
      t'.id = t.id ∧ t'.userID = t.userID ∧ t'.title = t.title ∧
      t'.description = t.description ∧ t'.createdAt = t.createdAt ∧
      (t.id ≠ taskID → t' = t))
      store (Repositories.AutoCompleteTask store taskID now) := by
  induction store with
  | nil => exact List.Forall₂.nil
  | cons t rest ih =>
    simp only [Repositories.AutoCompleteTask, List.map_cons] at ih ⊢
    refine List.Forall₂.cons ?_ ih
    split
    · rename_i hc
      refine ⟨rfl, rfl, rfl, rfl, rfl, fun hne => ?_⟩
      simp only [Bool.and_eq_true, Bool.or_eq_true, beq_iff_eq] at hc
      exact absurd hc.1 hne
    · exact ⟨rfl, rfl, rfl, rfl, rfl, fun _ => rfl⟩

/-- Witness for C9: the frame property evaluated on a two-row store. -/
theorem AutoCompleteTask_frame_witness :
    List.Forall₂ (fun t t' =>
      t'.id = t.id ∧ t'.userID = t.userID ∧ t'.title = t.title ∧
      t'.description = t.description ∧ t'.createdAt = t.createdAt ∧
      (t.id ≠ "t1" → t' = t))
      [pendingTask, completedTask]
      (Repositories.AutoCompleteTask [pendingTask, completedTask] "t1" 42) :=
  AutoCompleteTask_frame [pendingTask, completedTask] "t1" 42

theorem goAtoi_val_zero_of_not_ok (s : String)
    (h : (goAtoi s).2 = false) : (goAtoi s).1 = 0 := by
  simp only [goAtoi] at h ⊢
  split at h
  · simp at h
  · rename_i hc
    rw [if_neg hc]

theorem getEnvInt_zero_of_malformed (env : String → String) (key : String)
    (d : Int) (h1 : env key ≠ "") (h2 : (goAtoi (env key)).2 = false) :
    getEnvInt env key d = 0 := by
  simp only [getEnvInt]
  rw [if_neg h1]
  exact goAtoi_val_zero_of_not_ok _ h2

/-- Claim C10: when an integer configuration variable is set to a non-empty
string that does not parse, `getEnvInt` discards the parse error and
returns 0, not the documented default; in particular a malformed
`AUTO_COMPLETE_MINUTES` makes the loaded delay 0 minutes, so every
`pending` or `in_progress` task created before now is immediately an
auto-completion candidate. -/
theorem malformed_env_int_yields_zero (env : String → String) :
    (∀ (key : String) (d : Int), env key ≠ "" →
      (goAtoi (env key)).2 = false → getEnvInt env key d = 0) ∧
    (env "AUTO_COMPLETE_MINUTES" ≠ "" →
      (goAtoi (env "AUTO_COMPLETE_MINUTES")).2 = false →
      (LoadConfig env).AutoCompleteMinutes = 0 ∧
      ∀ (store : List Task) (now : Int) (t : Task), t ∈ store →
        (t.status = Status.pending ∨ t.status = Status.inProgress) →
        t.createdAt < now →
        t ∈ Repositories.GetTasksForAutoCompletion store now
          ((LoadConfig env).AutoCompleteMinutes)) := by
  refine ⟨fun key d h1 h2 => getEnvInt_zero_of_malformed env key d h1 h2,
    fun h1 h2 => ?_⟩
  have hz : (LoadConfig env).AutoCompleteMinutes = 0 :=
    getEnvInt_zero_of_malformed env _ _ h1 h2
  refine ⟨hz, fun store now t ht hst hcr => ?_⟩
  rw [hz]
  simp only [Repositories.GetTasksForAutoCompletion, List.mem_filter,
    Bool.and_eq_true, Bool.or_eq_true, beq_iff_eq, decide_eq_true_eq]
  exact ⟨ht, hst, by simpa using hcr⟩

/-- Witness for C10: with `AUTO_COMPLETE_MINUTES=abc` the loaded delay is 0
and an old pending task is immediately a candidate. -/
theorem malformed_env_int_yields_zero_witness :
    (LoadConfig badEnv).AutoCompleteMinutes = 0 ∧
    pendingTask ∈ Repositories.GetTasksForAutoCompletion [pendingTask] 5
      ((LoadConfig badEnv).AutoCompleteMinutes) :=
  have h := (malformed_env_int_yields_zero badEnv).2 (by decide) (by decide)
  ⟨h.1, h.2 [pendingTask] 5 pendingTask (by simp) (Or.inl rfl) (by decide)⟩

end TaskAPI
